import Mathlib

/-!
Verification of the Bifrost trap sender (src/main.py) against its
natural-language specification.

The Python module is shallowly embedded: JSON payload values become the
inductive type `JVal`; Python's truthiness, `str(...)` and `int(...)`
coercions become `truthy`, `pyStr` and `pyInt`; dictionary access becomes
`dictGet` / `dictGetD` over association lists; the SNMP library calls are
modelled by the data actually passed to them (`SnmpValue`, `SnmpResult`),
and the network is an explicit oracle (`Net`).  Fallible Python code
(raised exceptions) is modelled with `Option` / `Except`.
-/

namespace Bifrost

/-- JSON-like values, as decoded by `r.json()` from the API payload.
Floating-point numbers are not modelled (no claim touches them). -/
inductive JVal where
  | jnull : JVal
  | jbool : Bool → JVal
  | jint : Int → JVal
  | jstr : String → JVal
  | jarr : List JVal → JVal
  | jobj : List (String × JVal) → JVal
deriving Repr

/-- Python truthiness `bool(v)` of a JSON value: `None`, `False`, `0`, `""`,
`[]` and the empty dict are falsy, everything else is truthy. -/
def truthy : JVal → Bool
  | JVal.jnull => false
  | JVal.jbool b => b
  | JVal.jint n => n != 0
  | JVal.jstr s => s != ""
  | JVal.jarr xs => !xs.isEmpty
  | JVal.jobj kvs => !kvs.isEmpty

/-- Python `str(v)` on the values above: `str(None) = "None"`,
`str(True) = "True"`, `str(False) = "False"`, integers print in decimal,
strings pass through.  Containers are rendered by an abstract sentinel;
no claim exercises `str` on a container value. -/
def pyStr : JVal → String
  | JVal.jnull => "None"
  | JVal.jbool true => "True"
  | JVal.jbool false => "False"
  | JVal.jint n => toString n
  | JVal.jstr s => s
  | JVal.jarr _ => "<list>"
  | JVal.jobj _ => "<dict>"

/-- Python `int(v)`: integers pass through, booleans map to 0/1, strings
parse as an optionally signed decimal integer (whitespace trimmed), and
everything else (including `None`) raises, i.e. returns `none`. -/
def pyInt : JVal → Option Int
  | JVal.jint n => some n
  | JVal.jbool b => some (if b then 1 else 0)
  | JVal.jstr s => s.trim.toInt?
  | _ => none

/-- Python `s.lower()`, character-wise ASCII lower-casing (structural
recursion over the character list, so that it evaluates by reduction). -/
def pyLower (s : String) : String := String.mk (s.data.map Char.toLower)

/-- A Python dict with string keys, as an association list. -/
abbrev Dict := List (String × JVal)

/-- Python `d.get(k)`: `some v` when the key is present (even when the stored
value is `None`), `none` when the key is absent. -/
def dictGet (d : Dict) (k : String) : Option JVal :=
  (d.find? (fun p => p.1 == k)).map (fun p => p.2)

/-- Python `d.get(k, dflt)`: the stored value when the key is present,
the default otherwise. -/
def dictGetD (d : Dict) (k : String) (dflt : JVal) : JVal :=
  (dictGet d k).getD dflt

/-- The static configuration read from the environment:
`ENTERPRISE_TRAP_OID` (default `"1.3.6.1.4.1.11307.10"`) and
`DEFAULT_LOCATION` (default `"unknown"`). -/
structure Config where
  ENTERPRISE_TRAP_OID : String
  DEFAULT_LOCATION : String

/-- The configuration with both environment variables unset. -/
def defaultConfig : Config := Config.mk "1.3.6.1.4.1.11307.10" "unknown"

/-- SNMP wire values.  The Python module only ever constructs
`OctetString(...)`, whose raw argument we record; the numeric constructors
exist in the protocol but are never used by the translator. -/
inductive SnmpValue where
  | OctetString : JVal → SnmpValue
  | Integer32 : Int → SnmpValue
  | TimeTicks : Int → SnmpValue
deriving Repr

/-- A varbind: an object identifier (modelled by its dotted string, the
argument of `ObjectIdentity(...)`) paired with a wire value. -/
abbrev Varbind := String × SnmpValue

/-- Function `ip_mock_por_nodeid` (src/main.py lines 105-108): synthetic address
`10.199.<a>.<b>` with `a = (node_id // 256) % 256` and `b = node_id % 256`,
using Python floor division and sign-of-divisor modulus (`Int.fdiv` /
`Int.emod`). -/
def ip_mock_por_nodeid (node_id : Int) : String :=
  "10.199." ++ toString ((node_id.fdiv 256).emod 256) ++ "." ++ toString (node_id.emod 256)

/-- Line 115: `caption = str(nodo.get("Caption", f"node-{node_id}"))`. -/
def captionOf (nodo : Dict) (node_id : Int) : String :=
  pyStr (dictGetD nodo "Caption" (JVal.jstr ("node-" ++ toString node_id)))

/-- Line 116: `status = str(nodo.get("Status", "unknown")).lower()`. -/
def statusOf (nodo : Dict) : String :=
  pyLower (pyStr (dictGetD nodo "Status" (JVal.jstr "unknown")))

/-- Line 117: `vendor = str(nodo.get("Vendor", "unknown"))`. -/
def vendorOf (nodo : Dict) : String :=
  pyStr (dictGetD nodo "Vendor" (JVal.jstr "unknown"))

/-- Line 118: `node_ip = nodo.get("NodeIP") or ip_mock_por_nodeid(node_id)`:
the raw stored value when truthy, the synthetic address otherwise.  Note the
value is NOT passed through `str`. -/
def nodeIpOf (nodo : Dict) (node_id : Int) : JVal :=
  let v := (dictGet nodo "NodeIP").getD JVal.jnull
  if truthy v then v else JVal.jstr (ip_mock_por_nodeid node_id)

/-- Line 119: `location = str(nodo.get("location") or DEFAULT_LOCATION)`. -/
def locationOf (cfg : Config) (nodo : Dict) : String :=
  let v := (dictGet nodo "location").getD JVal.jnull
  pyStr (if truthy v then v else JVal.jstr cfg.DEFAULT_LOCATION)

/-- Function `construir_varbinds` (src/main.py lines 111-142).  `int(nodo.get("NodeID"))`
raising is modelled by `none`; on success the fixed 9-entry varbind list is
returned, every value wrapped in `OctetString`. -/
def construir_varbinds (cfg : Config) (nodo : Dict) : Option (List Varbind) :=
  match pyInt ((dictGet nodo "NodeID").getD JVal.jnull) with
  | none => none
  | some node_id =>
    some [
      ("1.3.6.1.2.1.1.3.0", SnmpValue.OctetString (JVal.jstr "0")),
      ("1.3.6.1.6.3.1.1.4.1.0", SnmpValue.OctetString (JVal.jstr cfg.ENTERPRISE_TRAP_OID)),
      ("1.3.6.1.6.3.1.1.4.3.0", SnmpValue.OctetString (JVal.jstr "1.3.6.1.4.1.11307")),
      ("1.3.6.1.2.1.1.6.0", SnmpValue.OctetString (JVal.jstr (locationOf cfg nodo))),
      (cfg.ENTERPRISE_TRAP_OID ++ ".1", SnmpValue.OctetString (JVal.jstr (statusOf nodo))),
      (cfg.ENTERPRISE_TRAP_OID ++ ".2", SnmpValue.OctetString (JVal.jstr (captionOf nodo node_id))),
      (cfg.ENTERPRISE_TRAP_OID ++ ".3", SnmpValue.OctetString (nodeIpOf nodo node_id)),
      (cfg.ENTERPRISE_TRAP_OID ++ ".4", SnmpValue.OctetString (JVal.jstr (toString node_id))),
      (cfg.ENTERPRISE_TRAP_OID ++ ".5", SnmpValue.OctetString (JVal.jstr (vendorOf nodo)))]

/-- Classified fetch-phase failures.  In src/main.py all three are raised as
`BifrostAPIError` with distinguishing messages (lines 86-93); the spec names
them `AuthError`, `UnexpectedResponseError` and `MalformedPayloadError`.
`DecodeError` stands for `r.json()` itself raising on an undecodable body. -/
inductive FetchError where
  | AuthError : FetchError
  | UnexpectedResponseError : Nat → FetchError
  | MalformedPayloadError : FetchError
  | DecodeError : FetchError
deriving Repr, DecidableEq

/-- The HTTP response observed by `obtener_nodos`: its status code and the
result of `r.json()` (`none` when the body does not decode). -/
structure HttpResponse where
  status_code : Nat
  body : Option JVal

/-- Function `obtener_nodos` (src/main.py lines 78-99): 401 is rejected first, then any
status other than 200, then a decoded body that is not a JSON array
(`isinstance(data, list)`); otherwise the array elements are returned. -/
def obtener_nodos (r : HttpResponse) : Except FetchError (List JVal) :=
  if r.status_code = 401 then Except.error FetchError.AuthError
  else if r.status_code ≠ 200 then Except.error (FetchError.UnexpectedResponseError r.status_code)
  else
    match r.body with
    | none => Except.error FetchError.DecodeError
    | some (JVal.jarr xs) => Except.ok xs
    | some _ => Except.error FetchError.MalformedPayloadError

/-- The `(errorIndication, errorStatus, errorIndex, varBinds)` quadruple
returned by the SNMP notification call in `enviar_trap`.  `errorIndication`
is `some msg` exactly when a transport-level indication object (always
truthy in Python) was returned. -/
structure SnmpResult where
  errorIndication : Option String
  errorStatus : Nat
  errorIndex : Nat

/-- Send-phase failures: the two `RuntimeError`s of lines 168-173, named
`TransportError` and `ProtocolError` (with error status and offending
varbind index) by the spec. -/
inductive SendError where
  | TransportError : String → SendError
  | ProtocolError : Nat → Nat → SendError
deriving Repr, DecidableEq

/-- The error classification of `enviar_trap` (src/main.py lines 148-173):
a truthy `error_indication` raises first; then a truthy (non-zero)
`error_status` raises with the offending index; otherwise success. -/
def enviar_trap (res : SnmpResult) : Except SendError Unit :=
  match res.errorIndication with
  | some ei => Except.error (SendError.TransportError ei)
  | none =>
    if res.errorStatus = 0 then Except.ok ()
    else Except.error (SendError.ProtocolError res.errorStatus res.errorIndex)

/-- The network environment: the SNMP engine result for the i-th send call,
given the varbinds handed to it. -/
abbrev Net := Nat → List Varbind → SnmpResult

/-- Observable events of one run, used to state ordering and timing
properties: node `i` was translated, node `i` was sent, the loop slept for
the given milliseconds, or the run summary (node count, total modelled send
time in ms) was emitted to the execution log. -/
inductive Event where
  | translated : Nat → Event
  | sent : Nat → Event
  | slept : Nat → Event
  | summary : Nat → Nat → Event
deriving Repr, DecidableEq

/-- Run-fatal errors, tagged with the index of the node that failed. -/
inductive RunError where
  | fetchFailed : FetchError → RunError
  | translateFailed : Nat → RunError
  | sendFailed : Nat → SendError → RunError
deriving Repr

/-- Attribute access `nodo.get(...)` is only available on a dict; any other JSON element makes
`construir_varbinds(nodo)` raise, which aborts the run like any translation
failure. -/
def asDict : JVal → Option Dict
  | JVal.jobj kvs => some kvs
  | _ => none

/-- Translation of one fetched element: view it as a record, then build its
varbinds; `none` models the exception propagating out of `construir_varbinds`. -/
def translate (cfg : Config) (v : JVal) : Option (List Varbind) :=
  (asDict v).bind (construir_varbinds cfg)

/-- The trap-sending loop of `main` (src/main.py lines 196-199), started at
absolute node index `i`: for each node in fetch order, translate, send via
the network oracle, then `asyncio.sleep(0.02)`; the first exception aborts
the loop with the remaining nodes untouched. -/
def sendLoop (cfg : Config) (net : Net) : List JVal → Nat → List Event × Option RunError
  | [], _ => ([], none)
  | nodo :: rest, i =>
    match translate cfg nodo with
    | none => ([], some (RunError.translateFailed i))
    | some vb =>
      match enviar_trap (net i vb) with
      | Except.error e => ([Event.translated i], some (RunError.sendFailed i e))
      | Except.ok _ =>
        (Event.translated i :: Event.sent i :: Event.slept 20 :: (sendLoop cfg net rest (i + 1)).1,
         (sendLoop cfg net rest (i + 1)).2)

/-- Total milliseconds slept in a trace: the modelled elapsed send time
(network latency is ignored, as in the spec's pacing property). -/
def sleepTime : List Event → Nat
  | [] => 0
  | Event.slept ms :: t => ms + sleepTime t
  | _ :: t => sleepTime t

/-- Function `main` (src/main.py lines 179-209): fetch once (failure aborts with no
summary), run the send loop over all nodes from index 0, and only when the
loop finishes without error emit the run summary with the node count and the
total send time. -/
def mainRun (cfg : Config) (resp : HttpResponse) (net : Net) : List Event × Option RunError :=
  match obtener_nodos resp with
  | Except.error e => ([], some (RunError.fetchFailed e))
  | Except.ok nodos =>
    match (sendLoop cfg net nodos 0).2 with
    | some e => ((sendLoop cfg net nodos 0).1, some e)
    | none => ((sendLoop cfg net nodos 0).1 ++
        [Event.summary nodos.length (sleepTime (sendLoop cfg net nodos 0).1)], none)

/-- One processing step succeeds: the node translates and the i-th send call
comes back clean.  (Bool-valued so concrete runs evaluate by reduction.) -/
def stepOk (cfg : Config) (net : Net) (i : Nat) (nodo : JVal) : Bool :=
  match translate cfg nodo with
  | none => false
  | some vb =>
    match enviar_trap (net i vb) with
    | Except.ok _ => true
    | Except.error _ => false

/-- An event mentions no node index above `m` (translations may include `m`
itself, sends may not) and is not a summary. -/
def evBounded (m : Nat) : Event → Prop
  | Event.translated j => j ≤ m
  | Event.sent j => j < m
  | Event.slept _ => True
  | Event.summary _ _ => False

/-- The record of the spec's end-to-end translation scenario. -/
def demoRecord : Dict :=
  [("NodeID", JVal.jint 5), ("Caption", JVal.jstr "core-sw"), ("Status", JVal.jstr "Down")]

/-- A fetch response carrying three minimal node records. -/
def demoResp : HttpResponse :=
  HttpResponse.mk 200 (some (JVal.jarr
    [JVal.jobj [("NodeID", JVal.jint 1)],
     JVal.jobj [("NodeID", JVal.jint 2)],
     JVal.jobj [("NodeID", JVal.jint 3)]]))

/-- The node list carried by `demoResp`. -/
def demoNodes : List JVal :=
  [JVal.jobj [("NodeID", JVal.jint 1)],
   JVal.jobj [("NodeID", JVal.jint 2)],
   JVal.jobj [("NodeID", JVal.jint 3)]]

/-- A network in which the send for node index 1 (the 2nd node) comes back
with protocol error status 5 at varbind index 2, and every other send is
clean. -/
def demoNetFail2 : Net :=
  fun i _ => if i = 1 then SnmpResult.mk none 5 2 else SnmpResult.mk none 0 0

/-- A network in which every send is clean. -/
def demoNetOk : Net := fun _ _ => SnmpResult.mk none 0 0

/-- A fetch response carrying two minimal node records. -/
def demoResp2 : HttpResponse :=
  HttpResponse.mk 200 (some (JVal.jarr
    [JVal.jobj [("NodeID", JVal.jint 1)],
     JVal.jobj [("NodeID", JVal.jint 2)]]))

/-- A record with every optional field absent. -/
def bareRecord : Dict := [("NodeID", JVal.jint 7)]

/-- A record whose optional fields hold assorted non-string JSON values. -/
def oddRecord : Dict :=
  [("NodeID", JVal.jint 42), ("Caption", JVal.jnull), ("Status", JVal.jbool true),
   ("NodeIP", JVal.jint 0), ("location", JVal.jarr []), ("Vendor", JVal.jobj [])]

/-- A record whose optional fields are present but hold empty strings. -/
def emptyFieldsRecord : Dict :=
  [("NodeID", JVal.jint 300), ("Caption", JVal.jstr ""), ("Status", JVal.jstr ""),
   ("Vendor", JVal.jstr ""), ("NodeIP", JVal.jstr ""), ("location", JVal.jstr "")]

/-- A record whose optional fields are present but hold JSON null. -/
def nullFieldsRecord : Dict :=
  [("NodeID", JVal.jint 300), ("Caption", JVal.jnull),
   ("NodeIP", JVal.jnull), ("location", JVal.jnull)]

/-- A record that agrees with `bareRecord` on every field the translator
reads, but carries an extra unrelated key. -/
def bareRecordExtra : Dict := [("Unrelated", JVal.jstr "x"), ("NodeID", JVal.jint 7)]

end Bifrost

namespace Bifrost

/-- Once `NodeID` coerces to an integer, the translator's output is exactly
the fixed 9-entry list, each value derived by the corresponding
field-derivation function. -/
theorem construir_varbinds_eq (cfg : Config) (nodo : Dict) (nid : Int)
    (h : pyInt ((dictGet nodo "NodeID").getD JVal.jnull) = some nid) :
    construir_varbinds cfg nodo = some [
      ("1.3.6.1.2.1.1.3.0", SnmpValue.OctetString (JVal.jstr "0")),
      ("1.3.6.1.6.3.1.1.4.1.0", SnmpValue.OctetString (JVal.jstr cfg.ENTERPRISE_TRAP_OID)),
      ("1.3.6.1.6.3.1.1.4.3.0", SnmpValue.OctetString (JVal.jstr "1.3.6.1.4.1.11307")),
      ("1.3.6.1.2.1.1.6.0", SnmpValue.OctetString (JVal.jstr (locationOf cfg nodo))),
      (cfg.ENTERPRISE_TRAP_OID ++ ".1", SnmpValue.OctetString (JVal.jstr (statusOf nodo))),
      (cfg.ENTERPRISE_TRAP_OID ++ ".2", SnmpValue.OctetString (JVal.jstr (captionOf nodo nid))),
      (cfg.ENTERPRISE_TRAP_OID ++ ".3", SnmpValue.OctetString (nodeIpOf nodo nid)),
      (cfg.ENTERPRISE_TRAP_OID ++ ".4", SnmpValue.OctetString (JVal.jstr (toString nid))),
      (cfg.ENTERPRISE_TRAP_OID ++ ".5", SnmpValue.OctetString (JVal.jstr (vendorOf nodo)))] := by
  unfold construir_varbinds
  rw [h]

/-- C1: for every NodeRecord whose NodeID coerces to an integer,
`construir_varbinds` returns exactly 9 (OID, value) pairs in the fixed order
sysUpTime.0 = "0", snmpTrapOID.0 = the configured enterprise trap root OID,
generic-trap OID = "1.3.6.1.4.1.11307", sysLocation.0 = location,
root.1 = lower-cased Status, root.2 = Caption, root.3 = NodeIP or the
synthetic fallback, root.4 = the string form of NodeID, root.5 = Vendor;
every value is an opaque octet-string, never a numeric SNMP type; and on
the record NodeID=5, Caption="core-sw", Status="Down" the 5th through 9th
values are "down", "core-sw", "10.199.0.5", "5", "unknown". -/
theorem c1_varbind_set_fixed_order_and_values :
    (∀ (cfg : Config) (nodo : Dict) (nid : Int),
      pyInt ((dictGet nodo "NodeID").getD JVal.jnull) = some nid →
      construir_varbinds cfg nodo = some [
        ("1.3.6.1.2.1.1.3.0", SnmpValue.OctetString (JVal.jstr "0")),
        ("1.3.6.1.6.3.1.1.4.1.0", SnmpValue.OctetString (JVal.jstr cfg.ENTERPRISE_TRAP_OID)),
        ("1.3.6.1.6.3.1.1.4.3.0", SnmpValue.OctetString (JVal.jstr "1.3.6.1.4.1.11307")),
        ("1.3.6.1.2.1.1.6.0", SnmpValue.OctetString (JVal.jstr (locationOf cfg nodo))),
        (cfg.ENTERPRISE_TRAP_OID ++ ".1", SnmpValue.OctetString (JVal.jstr (statusOf nodo))),
        (cfg.ENTERPRISE_TRAP_OID ++ ".2", SnmpValue.OctetString (JVal.jstr (captionOf nodo nid))),
        (cfg.ENTERPRISE_TRAP_OID ++ ".3", SnmpValue.OctetString (nodeIpOf nodo nid)),
        (cfg.ENTERPRISE_TRAP_OID ++ ".4", SnmpValue.OctetString (JVal.jstr (toString nid))),
        (cfg.ENTERPRISE_TRAP_OID ++ ".5", SnmpValue.OctetString (JVal.jstr (vendorOf nodo)))]) ∧
    (∀ (cfg : Config) (nodo : Dict) (vbs : List Varbind),
      construir_varbinds cfg nodo = some vbs →
      vbs.length = 9 ∧ ∀ p ∈ vbs, ∃ v, p.2 = SnmpValue.OctetString v) ∧
    construir_varbinds defaultConfig demoRecord = some [
      ("1.3.6.1.2.1.1.3.0", SnmpValue.OctetString (JVal.jstr "0")),
      ("1.3.6.1.6.3.1.1.4.1.0", SnmpValue.OctetString (JVal.jstr "1.3.6.1.4.1.11307.10")),
      ("1.3.6.1.6.3.1.1.4.3.0", SnmpValue.OctetString (JVal.jstr "1.3.6.1.4.1.11307")),
      ("1.3.6.1.2.1.1.6.0", SnmpValue.OctetString (JVal.jstr "unknown")),
      ("1.3.6.1.4.1.11307.10.1", SnmpValue.OctetString (JVal.jstr "down")),
      ("1.3.6.1.4.1.11307.10.2", SnmpValue.OctetString (JVal.jstr "core-sw")),
      ("1.3.6.1.4.1.11307.10.3", SnmpValue.OctetString (JVal.jstr "10.199.0.5")),
      ("1.3.6.1.4.1.11307.10.4", SnmpValue.OctetString (JVal.jstr "5")),
      ("1.3.6.1.4.1.11307.10.5", SnmpValue.OctetString (JVal.jstr "unknown"))] := by
  refine ⟨fun cfg nodo nid h => construir_varbinds_eq cfg nodo nid h, ?_, by rfl⟩
  intro cfg nodo vbs h
  unfold construir_varbinds at h
  cases hid : pyInt ((dictGet nodo "NodeID").getD JVal.jnull) with
  | none => rw [hid] at h; exact Option.noConfusion h
  | some nid =>
    rw [hid] at h
    cases h
    refine ⟨rfl, ?_⟩
    intro p hp
    simp only [List.mem_cons, List.not_mem_nil, or_false] at hp
    rcases hp with rfl | rfl | rfl | rfl | rfl | rfl | rfl | rfl | rfl <;> exact ⟨_, rfl⟩

/-- Witness for C1 at the spec's end-to-end record: NodeID coerces to 5 and
the universally quantified branch reproduces the concrete varbind list. -/
theorem c1_varbind_set_fixed_order_and_values_witness :
    construir_varbinds defaultConfig demoRecord = some [
      ("1.3.6.1.2.1.1.3.0", SnmpValue.OctetString (JVal.jstr "0")),
      ("1.3.6.1.6.3.1.1.4.1.0", SnmpValue.OctetString (JVal.jstr defaultConfig.ENTERPRISE_TRAP_OID)),
      ("1.3.6.1.6.3.1.1.4.3.0", SnmpValue.OctetString (JVal.jstr "1.3.6.1.4.1.11307")),
      ("1.3.6.1.2.1.1.6.0", SnmpValue.OctetString (JVal.jstr (locationOf defaultConfig demoRecord))),
      (defaultConfig.ENTERPRISE_TRAP_OID ++ ".1", SnmpValue.OctetString (JVal.jstr (statusOf demoRecord))),
      (defaultConfig.ENTERPRISE_TRAP_OID ++ ".2", SnmpValue.OctetString (JVal.jstr (captionOf demoRecord 5))),
      (defaultConfig.ENTERPRISE_TRAP_OID ++ ".3", SnmpValue.OctetString (nodeIpOf demoRecord 5)),
      (defaultConfig.ENTERPRISE_TRAP_OID ++ ".4", SnmpValue.OctetString (JVal.jstr (toString (5 : Int)))),
      (defaultConfig.ENTERPRISE_TRAP_OID ++ ".5", SnmpValue.OctetString (JVal.jstr (vendorOf demoRecord)))] :=
  c1_varbind_set_fixed_order_and_values.1 defaultConfig demoRecord 5 rfl

/-- C2: for every NodeRecord with a valid integer NodeID in which an optional
field is missing, the translator resolves that field to its documented
default exactly: Status (5th varbind) to "unknown", Caption (6th varbind) to
"node-NodeID", Vendor (9th varbind) to "unknown", and location (4th varbind)
to the configured default location. -/
theorem c2_missing_optional_field_defaults (cfg : Config) (nodo : Dict) (nid : Int)
    (h : pyInt ((dictGet nodo "NodeID").getD JVal.jnull) = some nid) :
    (dictGet nodo "Status" = none →
      (construir_varbinds cfg nodo).bind (fun l => l.get? 4) =
        some (cfg.ENTERPRISE_TRAP_OID ++ ".1", SnmpValue.OctetString (JVal.jstr "unknown"))) ∧
    (dictGet nodo "Caption" = none →
      (construir_varbinds cfg nodo).bind (fun l => l.get? 5) =
        some (cfg.ENTERPRISE_TRAP_OID ++ ".2",
          SnmpValue.OctetString (JVal.jstr ("node-" ++ toString nid)))) ∧
    (dictGet nodo "Vendor" = none →
      (construir_varbinds cfg nodo).bind (fun l => l.get? 8) =
        some (cfg.ENTERPRISE_TRAP_OID ++ ".5", SnmpValue.OctetString (JVal.jstr "unknown"))) ∧
    (dictGet nodo "location" = none →
      (construir_varbinds cfg nodo).bind (fun l => l.get? 3) =
        some ("1.3.6.1.2.1.1.6.0", SnmpValue.OctetString (JVal.jstr cfg.DEFAULT_LOCATION))) := by
  refine ⟨fun hst => ?_, fun hcap => ?_, fun hv => ?_, fun hloc => ?_⟩
  · have hs : statusOf nodo = "unknown" := by
      unfold statusOf dictGetD; rw [hst]; rfl
    rw [construir_varbinds_eq cfg nodo nid h, hs]; rfl
  · have hc : captionOf nodo nid = "node-" ++ toString nid := by
      unfold captionOf dictGetD; rw [hcap]; rfl
    rw [construir_varbinds_eq cfg nodo nid h, hc]; rfl
  · have hv2 : vendorOf nodo = "unknown" := by
      unfold vendorOf dictGetD; rw [hv]; rfl
    rw [construir_varbinds_eq cfg nodo nid h, hv2]; rfl
  · have hl : locationOf cfg nodo = cfg.DEFAULT_LOCATION := by
      unfold locationOf; rw [hloc]; rfl
    rw [construir_varbinds_eq cfg nodo nid h, hl]; rfl

/-- Witness for C2 on a record with only a NodeID: all four defaults appear. -/
theorem c2_missing_optional_field_defaults_witness :
    (construir_varbinds defaultConfig bareRecord).bind (fun l => l.get? 4) =
      some (defaultConfig.ENTERPRISE_TRAP_OID ++ ".1", SnmpValue.OctetString (JVal.jstr "unknown")) ∧
    (construir_varbinds defaultConfig bareRecord).bind (fun l => l.get? 5) =
      some (defaultConfig.ENTERPRISE_TRAP_OID ++ ".2",
        SnmpValue.OctetString (JVal.jstr ("node-" ++ toString (7 : Int)))) ∧
    (construir_varbinds defaultConfig bareRecord).bind (fun l => l.get? 8) =
      some (defaultConfig.ENTERPRISE_TRAP_OID ++ ".5", SnmpValue.OctetString (JVal.jstr "unknown")) ∧
    (construir_varbinds defaultConfig bareRecord).bind (fun l => l.get? 3) =
      some ("1.3.6.1.2.1.1.6.0", SnmpValue.OctetString (JVal.jstr defaultConfig.DEFAULT_LOCATION)) :=
  have h := c2_missing_optional_field_defaults defaultConfig bareRecord 7 rfl
  ⟨h.1 rfl, h.2.1 rfl, h.2.2.1 rfl, h.2.2.2 rfl⟩

/-- C3: for every integer NodeID in [0, 65535] the synthetic IP fallback
equals "10.199.a.b" with a = (NodeID // 256) mod 256 and b = NodeID mod 256
(which under the bound simplify to NodeID / 256 and NodeID mod 256), and
repeated calls with the same NodeID return the identical address. -/
theorem c3_synthetic_ip_formula (n : Nat) (h : n ≤ 65535) :
    ip_mock_por_nodeid (n : Int) =
      "10.199." ++ toString (n / 256 % 256) ++ "." ++ toString (n % 256) ∧
    ip_mock_por_nodeid (n : Int) =
      "10.199." ++ toString (n / 256) ++ "." ++ toString (n % 256) ∧
    ip_mock_por_nodeid (n : Int) = ip_mock_por_nodeid (n : Int) := by
  have hmain : ip_mock_por_nodeid (n : Int) =
      "10.199." ++ toString (n / 256 % 256) ++ "." ++ toString (n % 256) := by
    unfold ip_mock_por_nodeid
    rw [show ((n : Int).fdiv 256) = ((n / 256 : Nat) : Int) from (Int.ofNat_fdiv n 256).symm]
    rw [show (((n / 256 : Nat) : Int)).emod 256 = ((n / 256 % 256 : Nat) : Int) from
      (Int.ofNat_emod (n / 256) 256).symm]
    rw [show ((n : Int)).emod 256 = ((n % 256 : Nat) : Int) from (Int.ofNat_emod n 256).symm]
    rfl
  have hsmall : n / 256 % 256 = n / 256 :=
    Nat.mod_eq_of_lt (lt_of_le_of_lt (Nat.div_le_div_right h) (by norm_num))
  exact ⟨hmain, by rw [hmain, hsmall], rfl⟩

/-- Witness for C3 at NodeID 5, the spec's end-to-end value. -/
theorem c3_synthetic_ip_formula_witness :
    (5 : Nat) ≤ 65535 ∧ ip_mock_por_nodeid ((5 : Nat) : Int) = "10.199.0.5" :=
  ⟨by norm_num, ((c3_synthetic_ip_formula 5 (by norm_num)).1).trans (by rfl)⟩

/-- C9: the translator is total over every well-formed NodeRecord: whenever
the NodeID field is present and coercible to an integer, it produces a
varbind set (never fails), whatever the values or absence of the optional
fields Caption, Status, Vendor, NodeIP and location. -/
theorem c9_translator_total_once_nodeid_parses (cfg : Config) (nodo : Dict) (nid : Int)
    (h : pyInt ((dictGet nodo "NodeID").getD JVal.jnull) = some nid) :
    ∃ vbs, construir_varbinds cfg nodo = some vbs :=
  ⟨_, construir_varbinds_eq cfg nodo nid h⟩

/-- Witness for C9 on a record whose optional fields hold null, booleans,
numbers and containers. -/
theorem c9_translator_total_once_nodeid_parses_witness :
    ∃ vbs, construir_varbinds defaultConfig oddRecord = some vbs :=
  c9_translator_total_once_nodeid_parses defaultConfig oddRecord 42 rfl

/-- C8: the translator is pure and deterministic: its output is a function of
the static configuration and the six record fields it reads alone (two
records agreeing on those fields translate identically — no hidden state),
and two calls on the same record yield identical varbind sequences. -/
theorem c8_translator_pure_deterministic (cfg : Config) (n1 n2 : Dict)
    (h : ∀ k, k ∈ ["NodeID", "Caption", "Status", "Vendor", "NodeIP", "location"] →
      dictGet n1 k = dictGet n2 k) :
    construir_varbinds cfg n1 = construir_varbinds cfg n2 ∧
    construir_varbinds cfg n1 = construir_varbinds cfg n1 := by
  refine ⟨?_, rfl⟩
  have hid := h "NodeID" (by simp)
  have hcap := h "Caption" (by simp)
  have hst := h "Status" (by simp)
  have hv := h "Vendor" (by simp)
  have hip := h "NodeIP" (by simp)
  have hloc := h "location" (by simp)
  simp only [construir_varbinds, captionOf, statusOf, vendorOf, nodeIpOf, locationOf,
    dictGetD, hid, hcap, hst, hv, hip, hloc]

/-- Witness for C8: an extra unrelated key does not change the output. -/
theorem c8_translator_pure_deterministic_witness :
    construir_varbinds defaultConfig bareRecordExtra = construir_varbinds defaultConfig bareRecord :=
  (c8_translator_pure_deterministic defaultConfig bareRecordExtra bareRecord
    (by intro k hk; fin_cases hk <;> rfl)).1

/-- C10: the fallbacks are asymmetric.  A present-but-falsy NodeIP (empty
string or null) is replaced by the synthetic IP (7th varbind) and a
present-but-falsy location by the configured default (4th varbind), whereas
Caption, Status and Vendor default only on an absent key: a present empty
string is emitted as the empty string (6th, 5th, 9th varbinds) and a present
null Caption is emitted as the text "None". -/
theorem c10_asymmetric_fallbacks (cfg : Config) (nodo : Dict) (nid : Int)
    (h : pyInt ((dictGet nodo "NodeID").getD JVal.jnull) = some nid) :
    ((dictGet nodo "NodeIP" = some (JVal.jstr "") ∨ dictGet nodo "NodeIP" = some JVal.jnull) →
      (construir_varbinds cfg nodo).bind (fun l => l.get? 6) =
        some (cfg.ENTERPRISE_TRAP_OID ++ ".3",
          SnmpValue.OctetString (JVal.jstr (ip_mock_por_nodeid nid)))) ∧
    ((dictGet nodo "location" = some (JVal.jstr "") ∨ dictGet nodo "location" = some JVal.jnull) →
      (construir_varbinds cfg nodo).bind (fun l => l.get? 3) =
        some ("1.3.6.1.2.1.1.6.0", SnmpValue.OctetString (JVal.jstr cfg.DEFAULT_LOCATION))) ∧
    (dictGet nodo "Caption" = some (JVal.jstr "") →
      (construir_varbinds cfg nodo).bind (fun l => l.get? 5) =
        some (cfg.ENTERPRISE_TRAP_OID ++ ".2", SnmpValue.OctetString (JVal.jstr ""))) ∧
    (dictGet nodo "Status" = some (JVal.jstr "") →
      (construir_varbinds cfg nodo).bind (fun l => l.get? 4) =
        some (cfg.ENTERPRISE_TRAP_OID ++ ".1", SnmpValue.OctetString (JVal.jstr ""))) ∧
    (dictGet nodo "Vendor" = some (JVal.jstr "") →
      (construir_varbinds cfg nodo).bind (fun l => l.get? 8) =
        some (cfg.ENTERPRISE_TRAP_OID ++ ".5", SnmpValue.OctetString (JVal.jstr ""))) ∧
    (dictGet nodo "Caption" = some JVal.jnull →
      (construir_varbinds cfg nodo).bind (fun l => l.get? 5) =
        some (cfg.ENTERPRISE_TRAP_OID ++ ".2", SnmpValue.OctetString (JVal.jstr "None"))) := by
  refine ⟨fun hip => ?_, fun hloc => ?_, fun hcap => ?_, fun hst => ?_, fun hv => ?_,
    fun hcap2 => ?_⟩
  · have hn : nodeIpOf nodo nid = JVal.jstr (ip_mock_por_nodeid nid) := by
      rcases hip with hip | hip <;> (unfold nodeIpOf; rw [hip]; rfl)
    rw [construir_varbinds_eq cfg nodo nid h, hn]; rfl
  · have hl : locationOf cfg nodo = cfg.DEFAULT_LOCATION := by
      rcases hloc with hloc | hloc <;> (unfold locationOf; rw [hloc]; rfl)
    rw [construir_varbinds_eq cfg nodo nid h, hl]; rfl
  · have hc : captionOf nodo nid = "" := by
      unfold captionOf dictGetD; rw [hcap]; rfl
    rw [construir_varbinds_eq cfg nodo nid h, hc]; rfl
  · have hs : statusOf nodo = "" := by
      unfold statusOf dictGetD; rw [hst]; rfl
    rw [construir_varbinds_eq cfg nodo nid h, hs]; rfl
  · have hv2 : vendorOf nodo = "" := by
      unfold vendorOf dictGetD; rw [hv]; rfl
    rw [construir_varbinds_eq cfg nodo nid h, hv2]; rfl
  · have hc : captionOf nodo nid = "None" := by
      unfold captionOf dictGetD; rw [hcap2]; rfl
    rw [construir_varbinds_eq cfg nodo nid h, hc]; rfl

/-- Witness for C10: a present empty-string NodeIP is replaced by the
synthetic address while a present empty-string Status is emitted as "", and
a present null Caption is emitted as "None". -/
theorem c10_asymmetric_fallbacks_witness :
    (construir_varbinds defaultConfig emptyFieldsRecord).bind (fun l => l.get? 6) =
      some (defaultConfig.ENTERPRISE_TRAP_OID ++ ".3",
        SnmpValue.OctetString (JVal.jstr (ip_mock_por_nodeid 300))) ∧
    (construir_varbinds defaultConfig emptyFieldsRecord).bind (fun l => l.get? 4) =
      some (defaultConfig.ENTERPRISE_TRAP_OID ++ ".1", SnmpValue.OctetString (JVal.jstr "")) ∧
    (construir_varbinds defaultConfig nullFieldsRecord).bind (fun l => l.get? 5) =
      some (defaultConfig.ENTERPRISE_TRAP_OID ++ ".2", SnmpValue.OctetString (JVal.jstr "None")) :=
  have hA := c10_asymmetric_fallbacks defaultConfig emptyFieldsRecord 300 rfl
  have hB := c10_asymmetric_fallbacks defaultConfig nullFieldsRecord 300 rfl
  ⟨hA.1 (Or.inl rfl), hA.2.2.2.1 rfl, hB.2.2.2.2.2 rfl⟩

/-- C4: the fetcher fails with AuthError on HTTP 401, with
UnexpectedResponseError on any other non-success status, with
MalformedPayloadError when the decoded body is not a JSON sequence, and it
returns records only when none of these failures occurs (a success implies
status 200 and a JSON-array body). -/
theorem c4_fetch_error_classification (r : HttpResponse) :
    (r.status_code = 401 → obtener_nodos r = Except.error FetchError.AuthError) ∧
    (r.status_code ≠ 401 → r.status_code ≠ 200 →
      obtener_nodos r = Except.error (FetchError.UnexpectedResponseError r.status_code)) ∧
    (r.status_code = 200 → ∀ v, r.body = some v → (∀ xs, v ≠ JVal.jarr xs) →
      obtener_nodos r = Except.error FetchError.MalformedPayloadError) ∧
    (∀ xs, obtener_nodos r = Except.ok xs →
      r.status_code = 200 ∧ r.body = some (JVal.jarr xs)) := by
  unfold obtener_nodos
  refine ⟨fun h401 => ?_, fun h401 h200 => ?_, fun h200 v hv hnarr => ?_, fun xs hok => ?_⟩
  · rw [if_pos h401]
  · rw [if_neg h401, if_pos h200]
  · rw [if_neg (by rw [h200]; norm_num), if_neg (by rw [h200]; exact fun hc => hc rfl), hv]
    cases v with
    | jarr ys => exact absurd rfl (hnarr ys)
    | jnull => rfl
    | jbool b => rfl
    | jint n => rfl
    | jstr s => rfl
    | jobj kvs => rfl
  · by_cases h401 : r.status_code = 401
    · rw [if_pos h401] at hok
      exact Except.noConfusion hok
    · rw [if_neg h401] at hok
      by_cases h200 : r.status_code = 200
      · rw [if_neg (by exact fun hc => hc h200)] at hok
        cases hb : r.body with
        | none => rw [hb] at hok; exact Except.noConfusion hok
        | some v =>
          rw [hb] at hok
          cases v with
          | jarr ys =>
            have hxs : ys = xs := by
              injection hok
            exact ⟨h200, by rw [hxs]⟩
          | jnull => exact Except.noConfusion hok
          | jbool b => exact Except.noConfusion hok
          | jint n => exact Except.noConfusion hok
          | jstr s => exact Except.noConfusion hok
          | jobj kvs => exact Except.noConfusion hok
      · rw [if_pos h200] at hok
        exact Except.noConfusion hok

/-- Witness for C4: a 401 response is rejected as AuthError, a 500 response
as UnexpectedResponseError, and a 200 response whose body is a JSON object
(not an array) as MalformedPayloadError. -/
theorem c4_fetch_error_classification_witness :
    obtener_nodos (HttpResponse.mk 401 none) = Except.error FetchError.AuthError ∧
    obtener_nodos (HttpResponse.mk 500 none) =
      Except.error (FetchError.UnexpectedResponseError 500) ∧
    obtener_nodos (HttpResponse.mk 200 (some (JVal.jobj []))) =
      Except.error FetchError.MalformedPayloadError :=
  ⟨(c4_fetch_error_classification (HttpResponse.mk 401 none)).1 rfl,
   (c4_fetch_error_classification (HttpResponse.mk 500 none)).2.1 (by norm_num) (by norm_num),
   (c4_fetch_error_classification (HttpResponse.mk 200 (some (JVal.jobj [])))).2.2.1 rfl
     (JVal.jobj []) rfl (fun xs hx => JVal.noConfusion hx)⟩

/-- C6: the sender succeeds iff the protocol response carries no
transport-level error indication and a zero error status; a returned
indication raises TransportError, and a non-zero error status raises
ProtocolError carrying the offending varbind index. -/
theorem c6_send_error_classification (res : SnmpResult) :
    (enviar_trap res = Except.ok () ↔ res.errorIndication = none ∧ res.errorStatus = 0) ∧
    (∀ m, res.errorIndication = some m →
      enviar_trap res = Except.error (SendError.TransportError m)) ∧
    (res.errorIndication = none → res.errorStatus ≠ 0 →
      enviar_trap res = Except.error (SendError.ProtocolError res.errorStatus res.errorIndex)) := by
  obtain ⟨ei, es, ex⟩ := res
  unfold enviar_trap
  refine ⟨?_, ?_, ?_⟩
  · cases ei with
    | some m => simp
    | none =>
      by_cases h0 : es = 0
      · simp [h0]
      · simp [h0]
  · intro m hm
    cases hm
    rfl
  · intro hei h0
    cases hei
    simp [if_neg h0]

/-- Witness for C6: a clean response succeeds, an indication fails as
TransportError, a non-zero status fails as ProtocolError at its index. -/
theorem c6_send_error_classification_witness :
    enviar_trap (SnmpResult.mk none 0 0) = Except.ok () ∧
    enviar_trap (SnmpResult.mk (some "timeout") 0 0) =
      Except.error (SendError.TransportError "timeout") ∧
    enviar_trap (SnmpResult.mk none 5 3) = Except.error (SendError.ProtocolError 5 3) :=
  ⟨(c6_send_error_classification (SnmpResult.mk none 0 0)).1.mpr ⟨rfl, rfl⟩,
   (c6_send_error_classification (SnmpResult.mk (some "timeout") 0 0)).2.1 "timeout" rfl,
   (c6_send_error_classification (SnmpResult.mk none 5 3)).2.2 rfl (by norm_num)⟩

/-- The send loop itself never emits a run-summary event. -/
theorem sendLoop_no_summary (cfg : Config) (net : Net) :
    ∀ (nodos : List JVal) (i n ms : Nat),
      Event.summary n ms ∉ (sendLoop cfg net nodos i).1 := by
  intro nodos
  induction nodos with
  | nil => intro i n ms h; simp [sendLoop] at h
  | cons nodo rest ih =>
    intro i n ms h
    unfold sendLoop at h
    cases htr : translate cfg nodo with
    | none => simp only [htr] at h; simp at h
    | some vb =>
      simp only [htr] at h
      cases hs : enviar_trap (net i vb) with
      | error e =>
        simp only [hs, List.mem_singleton] at h
        exact Event.noConfusion h
      | ok u =>
        simp only [hs, List.mem_cons] at h
        rcases h with h | h | h | h
        · exact Event.noConfusion h
        · exact Event.noConfusion h
        · exact Event.noConfusion h
        · exact ih (i + 1) n ms h

/-- On a fully successful loop the trace sleeps exactly 20 ms per node. -/
theorem sendLoop_sleepTime (cfg : Config) (net : Net) :
    ∀ (nodos : List JVal) (i : Nat), (sendLoop cfg net nodos i).2 = none →
      sleepTime (sendLoop cfg net nodos i).1 = 20 * nodos.length := by
  intro nodos
  induction nodos with
  | nil => intro i _; rfl
  | cons nodo rest ih =>
    intro i hnone
    unfold sendLoop at hnone ⊢
    cases htr : translate cfg nodo with
    | none =>
      simp only [htr] at hnone
      exact Option.noConfusion hnone
    | some vb =>
      simp only [htr] at hnone ⊢
      cases hs : enviar_trap (net i vb) with
      | error e =>
        simp only [hs] at hnone
        exact Option.noConfusion hnone
      | ok u =>
        simp only [hs] at hnone ⊢
        show 20 + sleepTime (sendLoop cfg net rest (i + 1)).1 = 20 * (rest.length + 1)
        rw [ih (i + 1) hnone]
        ring

/-- If the first `k` relative steps succeed and the `k`-th fails, the loop
started at absolute index `i` reports an error and its trace never mentions
a node index beyond `i + k`. -/
theorem sendLoop_abort (cfg : Config) (net : Net) :
    ∀ (nodos : List JVal) (k i : Nat), k < nodos.length →
    (∀ j, j < k → ∀ nodo, nodos.get? j = some nodo → stepOk cfg net (i + j) nodo = true) →
    (∀ nodo, nodos.get? k = some nodo → stepOk cfg net (i + k) nodo = false) →
    (sendLoop cfg net nodos i).2.isSome = true ∧
    (∀ ev ∈ (sendLoop cfg net nodos i).1, evBounded (i + k) ev) := by
  intro nodos
  induction nodos with
  | nil => intro k i hk; exact absurd hk (Nat.not_lt_zero k)
  | cons nodo rest ih =>
    intro k i hk hbefore hfail
    cases k with
    | zero =>
      have hf := hfail nodo rfl
      rw [Nat.add_zero] at hf
      unfold stepOk at hf
      cases htr : translate cfg nodo with
      | none =>
        unfold sendLoop
        simp only [htr]
        exact ⟨rfl, by intro ev hev; simp at hev⟩
      | some vb =>
        simp only [htr] at hf
        cases hs : enviar_trap (net i vb) with
        | ok u => simp only [hs] at hf; exact Bool.noConfusion hf
        | error e =>
          unfold sendLoop
          simp only [htr, hs]
          refine ⟨rfl, ?_⟩
          intro ev hev
          simp only [List.mem_singleton] at hev
          subst hev
          show i ≤ i + 0
          omega
    | succ k =>
      have h0 := hbefore 0 (Nat.succ_pos k) nodo rfl
      rw [Nat.add_zero] at h0
      unfold stepOk at h0
      cases htr : translate cfg nodo with
      | none => simp only [htr] at h0; exact Bool.noConfusion h0
      | some vb =>
        simp only [htr] at h0
        cases hs : enviar_trap (net i vb) with
        | error e => simp only [hs] at h0; exact Bool.noConfusion h0
        | ok u =>
          have ihres := ih k (i + 1) (Nat.lt_of_succ_lt_succ hk)
            (fun j hj nodo2 hn2 => by
              have hstep := hbefore (j + 1) (Nat.succ_lt_succ hj) nodo2 hn2
              rw [show i + 1 + j = i + (j + 1) from by omega]
              exact hstep)
            (fun nodo2 hn2 => by
              have hstep := hfail nodo2 hn2
              rw [show i + 1 + k = i + (k + 1) from by omega]
              exact hstep)
          unfold sendLoop
          simp only [htr, hs]
          refine ⟨ihres.1, ?_⟩
          intro ev hev
          simp only [List.mem_cons] at hev
          rcases hev with rfl | rfl | rfl | hev
          · show i ≤ i + (k + 1); omega
          · show i < i + (k + 1); omega
          · trivial
          · have hb := ihres.2 ev hev
            rw [show i + 1 + k = i + (k + 1) from by omega] at hb
            exact hb

/-- C5: a run whose `k`-th node fails to translate or send aborts
immediately: the run reports failure, no node after the `k`-th is translated
or sent, and no run summary is emitted. -/
theorem c5_abort_on_first_failure (cfg : Config) (resp : HttpResponse) (net : Net)
    (nodos : List JVal) (k : Nat)
    (hfetch : obtener_nodos resp = Except.ok nodos)
    (hk : k < nodos.length)
    (hbefore : ∀ j, j < k → ∀ nodo, nodos.get? j = some nodo → stepOk cfg net j nodo = true)
    (hfail : ∀ nodo, nodos.get? k = some nodo → stepOk cfg net k nodo = false) :
    (mainRun cfg resp net).2.isSome = true ∧
    (∀ m, k < m → Event.translated m ∉ (mainRun cfg resp net).1 ∧
      Event.sent m ∉ (mainRun cfg resp net).1) ∧
    (∀ n ms, Event.summary n ms ∉ (mainRun cfg resp net).1) := by
  have haux := sendLoop_abort cfg net nodos k 0 hk
    (fun j hj nodo hn => by rw [Nat.zero_add]; exact hbefore j hj nodo hn)
    (fun nodo hn => by rw [Nat.zero_add]; exact hfail nodo hn)
  obtain ⟨e, he⟩ := Option.isSome_iff_exists.mp haux.1
  have hmain : mainRun cfg resp net = ((sendLoop cfg net nodos 0).1, some e) := by
    unfold mainRun
    simp only [hfetch, he]
  rw [hmain]
  refine ⟨rfl, ?_, ?_⟩
  · intro m hm
    constructor
    · intro hmem
      have hb : m ≤ 0 + k := haux.2 (Event.translated m) hmem
      omega
    · intro hmem
      have hb : m < 0 + k := haux.2 (Event.sent m) hmem
      omega
  · intro n ms hmem
    exact haux.2 (Event.summary n ms) hmem

/-- Witness for C5: a 3-node run whose 2nd send fails with a protocol error
reports failure, never sends the 3rd node, and emits no summary. -/
theorem c5_abort_on_first_failure_witness :
    (mainRun defaultConfig demoResp demoNetFail2).2.isSome = true ∧
    Event.sent 2 ∉ (mainRun defaultConfig demoResp demoNetFail2).1 ∧
    (∀ n ms, Event.summary n ms ∉ (mainRun defaultConfig demoResp demoNetFail2).1) := by
  have h := c5_abort_on_first_failure defaultConfig demoResp demoNetFail2 demoNodes 1
    rfl (by decide)
    (by
      intro j hj nodo hn
      match j, hj with
      | 0, _ =>
        rw [show demoNodes.get? 0 = some (JVal.jobj [("NodeID", JVal.jint 1)]) from rfl] at hn
        injection hn with hn2
        subst hn2
        decide)
    (by
      intro nodo hn
      rw [show demoNodes.get? 1 = some (JVal.jobj [("NodeID", JVal.jint 2)]) from rfl] at hn
      injection hn with hn2
      subst hn2
      decide)
  exact ⟨h.1, (h.2.1 2 (by decide)).2, h.2.2⟩

/-- C7: whenever a run summary is emitted for N successfully sent nodes, the
total modelled send time is at least (N-1) x 20 ms, the fixed pacing delay
between successive sends (network latency ignored). -/
theorem c7_pacing_lower_bound (cfg : Config) (resp : HttpResponse) (net : Net) (n ms : Nat)
    (h : Event.summary n ms ∈ (mainRun cfg resp net).1) :
    (n - 1) * 20 ≤ ms := by
  unfold mainRun at h
  cases hf : obtener_nodos resp with
  | error e => simp only [hf] at h; simp at h
  | ok nodos =>
    simp only [hf] at h
    cases hres : (sendLoop cfg net nodos 0).2 with
    | some e =>
      simp only [hres] at h
      exact absurd h (sendLoop_no_summary cfg net nodos 0 n ms)
    | none =>
      simp only [hres] at h
      rw [List.mem_append] at h
      rcases h with h | h
      · exact absurd h (sendLoop_no_summary cfg net nodos 0 n ms)
      · simp only [List.mem_singleton] at h
        injection h with h1 h2
        subst h1
        rw [h2, sendLoop_sleepTime cfg net nodos 0 hres]
        omega

/-- Witness for C7: a clean 2-node run emits summary (2, 40 ms), and indeed
(2-1) x 20 is at most 40. -/
theorem c7_pacing_lower_bound_witness :
    Event.summary 2 40 ∈ (mainRun defaultConfig demoResp2 demoNetOk).1 ∧ (2 - 1) * 20 ≤ 40 :=
  ⟨by decide, c7_pacing_lower_bound defaultConfig demoResp2 demoNetOk 2 40 (by decide)⟩

end Bifrost
